import Mathlib

/-!
Verification of the ThorlabsSC10 Tango device server (src/ThorlabsSC10.py).

The adapter is embedded shallowly: the Tango device instance becomes a
record of its cached fields (`enabled`, `open`, `interlock`), the optional
serial-connection object `sc`, the Tango state and status string.  The
serial device on the other end of the line is an oracle `String → Int`
mapping a query string to the integer its reply parses to (Python's
`int(reply)`); every method additionally returns the list of wire messages
it sent, so that command traces can be reasoned about.  Python's
`bool(int(r))` is `r ≠ 0`, and `'{:d}'.format(v)` on an arbitrary-precision
integer is decimal rendering, i.e. `toString (v : Int)`.
-/

/-- The Tango device states used by the server (`DevState.ON`, `OFF`,
`OPEN`, `CLOSE`). -/
inductive DevState
  | ON
  | OFF
  | OPEN
  | CLOSE
deriving DecidableEq, Repr

/-- A message sent over the serial line: either a query (sent with
`self.sc.query`, a reply is read back) or a command (sent with
`self.sc.sendcmd`, no reply payload). -/
inductive WireMsg
  | query (s : String)
  | cmd (s : String)
deriving DecidableEq, Repr

/-- The serial-connection object created by `ik.thorlabs.SC10.open_serial`;
the only piece of its state the server touches is the `prompt` string. -/
structure Conn where
  prompt : String
deriving DecidableEq, Repr

/-- Python's `bool(int(r))` on an integer reply value `r`. -/
def pyBool (n : Int) : Bool := n != 0

/-- The `Mode` IntEnum of the source (local 0-based representation). -/
inductive Mode
  | manual
  | auto
  | single
  | repeat
  | external
deriving DecidableEq, Repr

/-- Integer value of each `Mode` member, as declared in the source. -/
def Mode.toInt : Mode → Int
  | .manual => 0
  | .auto => 1
  | .single => 2
  | .repeat => 3
  | .external => 4

/-- The `BaudRate` IntEnum of the source: member `_9600` has value 0,
member `_115200` has value 1. -/
inductive BaudRate
  | _9600
  | _115200
deriving DecidableEq, Repr

/-- Integer value of each `BaudRate` member, as declared in the source. -/
def BaudRate.toInt : BaudRate → Int
  | ._9600 => 0
  | ._115200 => 1

/-- The `TriggerMode` IntEnum of the source. -/
inductive TriggerMode
  | internal
  | external
deriving DecidableEq, Repr

/-- The `ExTriggerMode` IntEnum of the source. -/
inductive ExTriggerMode
  | shutter
  | controller
deriving DecidableEq, Repr

/-- The device-server instance: the three cached boolean attributes
(`self.__enabled`, `self.__open`, `self.__interlock`), the optional serial
connection `self.sc`, and the Tango state and status. -/
structure ThorlabsSC10 where
  enabled : Bool
  «open» : Bool
  interlock : Bool
  sc : Option Conn
  state : DevState
  status : String
deriving DecidableEq, Repr

namespace ThorlabsSC10

/-- Outcome of the connection attempt inside `init_device`'s `try` block:
either the serial port cannot be opened (`open_serial` raises), or the
identification query `id?` fails (timeout or malformed reply, raised after
`self.sc` was assigned), or everything succeeds and `id?` returns a name. -/
inductive InitOutcome
  | openError
  | timeoutError
  | malformedReply
  | ok (idName : String)
deriving DecidableEq, Repr

/-- `init_device`: resets the three cached flags to `False`, then attempts
to open the serial line once, set the prompt to `'> '` and query `id?`;
on success the state becomes `ON`, on any exception the bare `except:`
swallows it, logs `Cannot connect!` and sets the state to `OFF`.  The
second component is the list of error-stream messages, the third the
number of `open_serial` attempts made (the code contains no retry loop).
The function is total: no exception escapes `init_device`. -/
def init_device (st : ThorlabsSC10) (o : InitOutcome) :
    ThorlabsSC10 × List String × Nat :=
  let st0 : ThorlabsSC10 :=
    { st with enabled := false, «open» := false, interlock := false }
  match o with
  | .openError => ({ st0 with state := .OFF }, ["Cannot connect!"], 1)
  | .timeoutError =>
      ({ st0 with sc := some ⟨"> "⟩, state := .OFF }, ["Cannot connect!"], 1)
  | .malformedReply =>
      ({ st0 with sc := some ⟨"> "⟩, state := .OFF }, ["Cannot connect!"], 1)
  | .ok _ => ({ st0 with sc := some ⟨"> "⟩, state := .ON }, [], 1)

/-- `delete_device`: sets the state to `OFF`, then executes `del self.sc`.
In Python, `del` on an attribute that is not set raises `AttributeError`,
so the deletion succeeds (and the info-stream message is emitted) only
when a connection object is present.  The first component is the instance
state after the method runs — `set_state(DevState.OFF)` executes before
the `del` statement, so the state is `OFF` even when the `del` raises —
and the second is either the raised exception or the info-stream
messages. -/
def delete_device (st : ThorlabsSC10) :
    ThorlabsSC10 × Except String (List String) :=
  let st1 : ThorlabsSC10 := { st with state := .OFF }
  match st1.sc with
  | none => (st1, .error "AttributeError")
  | some _ => ({ st1 with sc := none }, .ok ["Device was deleted!"])

/-- `always_executed_hook`: queries `ens?`, `closed?` and `interlock?` in
this order, stores their parsed 0/1 replies into the cached fields
(`open` is the negation of the `closed?` reply), then sets status/state to
OPEN or CLOSE according to the new `open` value.  Returns the new instance
state, the wire trace, and the method's Python return value (`DevState.OPEN`
on the open branch, `None` otherwise). -/
def always_executed_hook (st : ThorlabsSC10) (dev : String → Int) :
    ThorlabsSC10 × List WireMsg × Option DevState :=
  let st1 : ThorlabsSC10 :=
    { st with enabled := pyBool (dev "ens?"),
              «open» := !(pyBool (dev "closed?")),
              interlock := pyBool (dev "interlock?") }
  let trace := [WireMsg.query "ens?", WireMsg.query "closed?",
                WireMsg.query "interlock?"]
  if st1.«open» then
    ({ st1 with status := "Device is OPEN", state := .OPEN }, trace,
      some .OPEN)
  else
    ({ st1 with status := "Device is CLOSED", state := .CLOSE }, trace, none)

/-- `read_enabled`: returns the cached flag, sends nothing. -/
def read_enabled (st : ThorlabsSC10) : ThorlabsSC10 × List WireMsg × Bool :=
  (st, [], st.enabled)

/-- `read_open`: returns the cached flag, sends nothing. -/
def read_open (st : ThorlabsSC10) : ThorlabsSC10 × List WireMsg × Bool :=
  (st, [], st.«open»)

/-- `read_interlock`: returns the cached flag, sends nothing. -/
def read_interlock (st : ThorlabsSC10) : ThorlabsSC10 × List WireMsg × Bool :=
  (st, [], st.interlock)

/-- `read_baudrate`: queries `baud?` and returns `BaudRate._115200` when the
reply is truthy, `BaudRate._9600` otherwise. -/
def read_baudrate (st : ThorlabsSC10) (dev : String → Int) :
    ThorlabsSC10 × List WireMsg × BaudRate :=
  (st, [WireMsg.query "baud?"],
    if pyBool (dev "baud?") then BaudRate._115200 else BaudRate._9600)

/-- `write_baudrate`: sends `baud=<value>`. -/
def write_baudrate (st : ThorlabsSC10) (value : Int) :
    ThorlabsSC10 × List WireMsg :=
  (st, [WireMsg.cmd ("baud=" ++ toString value)])

/-- `read_mode`: queries `mode?` and returns the integer reply minus 1. -/
def read_mode (st : ThorlabsSC10) (dev : String → Int) :
    ThorlabsSC10 × List WireMsg × Int :=
  (st, [WireMsg.query "mode?"], dev "mode?" - 1)

/-- `write_mode`: sends `mode=<value+1>`. -/
def write_mode (st : ThorlabsSC10) (value : Int) :
    ThorlabsSC10 × List WireMsg :=
  (st, [WireMsg.cmd ("mode=" ++ toString (value + 1))])

/-- `read_trigger_mode`: queries `trig?` and returns the integer reply. -/
def read_trigger_mode (st : ThorlabsSC10) (dev : String → Int) :
    ThorlabsSC10 × List WireMsg × Int :=
  (st, [WireMsg.query "trig?"], dev "trig?")

/-- `write_trigger_mode`: sends `trig=<value>`. -/
def write_trigger_mode (st : ThorlabsSC10) (value : Int) :
    ThorlabsSC10 × List WireMsg :=
  (st, [WireMsg.cmd ("trig=" ++ toString value)])

/-- `read_extrigger_mode`: queries `xto?` and returns the integer reply. -/
def read_extrigger_mode (st : ThorlabsSC10) (dev : String → Int) :
    ThorlabsSC10 × List WireMsg × Int :=
  (st, [WireMsg.query "xto?"], dev "xto?")

/-- `write_extrigger_mode`: sends `xto=<value>`. -/
def write_extrigger_mode (st : ThorlabsSC10) (value : Int) :
    ThorlabsSC10 × List WireMsg :=
  (st, [WireMsg.cmd ("xto=" ++ toString value)])

/-- `read_repeat_count`: queries `rep?` and returns the integer reply. -/
def read_repeat_count (st : ThorlabsSC10) (dev : String → Int) :
    ThorlabsSC10 × List WireMsg × Int :=
  (st, [WireMsg.query "rep?"], dev "rep?")

/-- `write_repeat_count`: sends `rep=<value>`. -/
def write_repeat_count (st : ThorlabsSC10) (value : Int) :
    ThorlabsSC10 × List WireMsg :=
  (st, [WireMsg.cmd ("rep=" ++ toString value)])

/-- `read_open_duration`: queries `open?` and returns the integer reply. -/
def read_open_duration (st : ThorlabsSC10) (dev : String → Int) :
    ThorlabsSC10 × List WireMsg × Int :=
  (st, [WireMsg.query "open?"], dev "open?")

/-- `write_open_duration`: sends `open=<value>`. -/
def write_open_duration (st : ThorlabsSC10) (value : Int) :
    ThorlabsSC10 × List WireMsg :=
  (st, [WireMsg.cmd ("open=" ++ toString value)])

/-- `read_close_duration`: queries `shut?` and returns the integer reply. -/
def read_close_duration (st : ThorlabsSC10) (dev : String → Int) :
    ThorlabsSC10 × List WireMsg × Int :=
  (st, [WireMsg.query "shut?"], dev "shut?")

/-- `write_close_duration`: sends `shut=<value>`. -/
def write_close_duration (st : ThorlabsSC10) (value : Int) :
    ThorlabsSC10 × List WireMsg :=
  (st, [WireMsg.cmd ("shut=" ++ toString value)])

/-- `enable` command: when the cached flag is set, only a debug message is
emitted; otherwise a debug message is emitted and the toggle command `ens`
is sent.  Second component: wire trace; third: debug-stream messages. -/
def enable (st : ThorlabsSC10) :
    ThorlabsSC10 × List WireMsg × List String :=
  if st.enabled then
    (st, [], ["shutter already enabled"])
  else
    (st, [WireMsg.cmd "ens"], ["enable shutter"])

/-- `disable` command: when the cached flag is set, a debug message is
emitted and the toggle command `ens` is sent; otherwise only a debug
message is emitted. -/
def disable (st : ThorlabsSC10) :
    ThorlabsSC10 × List WireMsg × List String :=
  if st.enabled then
    (st, [WireMsg.cmd "ens"], ["disable shutter"])
  else
    (st, [], ["shutter already disabled"])

/-- `store_config` command: logs and sends `savp` unconditionally. -/
def store_config (st : ThorlabsSC10) :
    ThorlabsSC10 × List WireMsg × List String :=
  (st, [WireMsg.cmd "savp"], ["store config"])

/-- `restore_config` command: logs and sends `resp` unconditionally. -/
def restore_config (st : ThorlabsSC10) :
    ThorlabsSC10 × List WireMsg × List String :=
  (st, [WireMsg.cmd "resp"], ["load config"])

end ThorlabsSC10

/-- A concrete instance state used to instantiate universally quantified
theorems: freshly initialised, connected, state ON. -/
def sc10Init : ThorlabsSC10 :=
  { enabled := false, «open» := false, interlock := false,
    sc := some ⟨"> "⟩, state := .ON, status := "" }

/-- A disconnected instance state (connection reference absent, state OFF),
as left behind by a completed `delete_device`. -/
def sc10Off : ThorlabsSC10 :=
  { enabled := false, «open» := false, interlock := false,
    sc := none, state := .OFF, status := "" }

/-- Cache-frame predicate: the three cached status fields of `st2` equal
those of `st`. -/
def preservesCache (st st2 : ThorlabsSC10) : Prop :=
  st2.enabled = st.enabled ∧ st2.«open» = st.«open» ∧
    st2.interlock = st.interlock

/-- C1: for every mode value m in [0,4], writing the mode sends exactly the
command `mode=<m+1>`, and reading the mode returns the device's wire reply
minus 1, so with the device echoing wire value m+1 the round trip returns
m. -/
theorem sc10_C1_mode_roundtrip (st st2 : ThorlabsSC10) (dev : String → Int)
    (m : Int) (hm : 0 ≤ m ∧ m ≤ 4) (hdev : dev "mode?" = m + 1) :
    (ThorlabsSC10.write_mode st m).2 =
      [WireMsg.cmd ("mode=" ++ toString (m + 1))] ∧
    (ThorlabsSC10.read_mode st2 dev).2.2 = m := by
  refine ⟨rfl, ?_⟩
  show dev "mode?" - 1 = m
  rw [hdev]
  ring

/-- C1 witness: instantiated at m = 2 with a device echoing wire value 3. -/
theorem sc10_C1_witness :
    (ThorlabsSC10.write_mode sc10Init 2).2 =
      [WireMsg.cmd ("mode=" ++ toString ((2 : Int) + 1))] ∧
    (ThorlabsSC10.read_mode sc10Init (fun _ => 3)).2.2 = 2 :=
  sc10_C1_mode_roundtrip sc10Init sc10Init (fun _ => 3) 2 (by decide)
    (by decide)

/-- C2: every execution of `always_executed_hook` issues exactly the three
queries `ens?`, `closed?`, `interlock?` in that order, for every prior
cached state, and stores their parsed 0/1 replies into the cached
enabled/open/interlock fields. -/
theorem sc10_C2_refresh_queries (st : ThorlabsSC10) (dev : String → Int) :
    (ThorlabsSC10.always_executed_hook st dev).2.1 =
      [WireMsg.query "ens?", WireMsg.query "closed?",
        WireMsg.query "interlock?"] ∧
    (ThorlabsSC10.always_executed_hook st dev).1.enabled =
      pyBool (dev "ens?") ∧
    (ThorlabsSC10.always_executed_hook st dev).1.«open» =
      !(pyBool (dev "closed?")) ∧
    (ThorlabsSC10.always_executed_hook st dev).1.interlock =
      pyBool (dev "interlock?") := by
  by_cases h : pyBool (dev "closed?") <;>
    simp [ThorlabsSC10.always_executed_hook, h]

/-- C3: after every refresh the cached `open` equals the negation of the
device's 0/1 reply to `closed?`, and the derived coarse state is OPEN
exactly when `open` is true and CLOSE otherwise (with the matching status
string). -/
theorem sc10_C3_open_negation (st : ThorlabsSC10) (dev : String → Int) :
    (ThorlabsSC10.always_executed_hook st dev).1.«open» =
      !(pyBool (dev "closed?")) ∧
    (ThorlabsSC10.always_executed_hook st dev).1.state =
      (if (ThorlabsSC10.always_executed_hook st dev).1.«open» then
        DevState.OPEN else DevState.CLOSE) ∧
    (ThorlabsSC10.always_executed_hook st dev).1.status =
      (if (ThorlabsSC10.always_executed_hook st dev).1.«open» then
        "Device is OPEN" else "Device is CLOSED") := by
  by_cases h : pyBool (dev "closed?") <;>
    simp [ThorlabsSC10.always_executed_hook, h]

/-- C4: `enable` sends exactly one `ens` command when the cached flag is
false and nothing (log only) when it is true; `disable` is symmetric. -/
theorem sc10_C4_enable_disable (st : ThorlabsSC10) :
    (ThorlabsSC10.enable st).2.1 =
      (if st.enabled then [] else [WireMsg.cmd "ens"]) ∧
    (ThorlabsSC10.enable st).2.2 =
      (if st.enabled then ["shutter already enabled"]
        else ["enable shutter"]) ∧
    (ThorlabsSC10.disable st).2.1 =
      (if st.enabled then [WireMsg.cmd "ens"] else []) ∧
    (ThorlabsSC10.disable st).2.2 =
      (if st.enabled then ["disable shutter"]
        else ["shutter already disabled"]) := by
  cases h : st.enabled <;>
    simp [ThorlabsSC10.enable, ThorlabsSC10.disable, h]

/-- C5: `init_device` is a total function (the bare `except:` lets no
exception escape); on any failure outcome it sets the non-operational
state OFF and reports `Cannot connect!`, on success it sets ON, and it
makes exactly one connection attempt (no retry) in every case. -/
theorem sc10_C5_init (st : ThorlabsSC10) (o : ThorlabsSC10.InitOutcome) :
    (ThorlabsSC10.init_device st o).1.state =
      (match o with
        | .ok _ => DevState.ON
        | _ => DevState.OFF) ∧
    (ThorlabsSC10.init_device st o).2.1 =
      (match o with
        | .ok _ => []
        | _ => ["Cannot connect!"]) ∧
    (ThorlabsSC10.init_device st o).2.2 = 1 := by
  cases o <;> simp [ThorlabsSC10.init_device]

/-- C6: the numeric settings are uncached pass-throughs: each read issues
exactly one query (`rep?`, `open?`, `shut?`) and returns its integer
reply, each write issues exactly one command (`rep=`, `open=`, `shut=`
followed by the value) and nothing else (no read-back). -/
theorem sc10_C6_numeric_passthrough (st : ThorlabsSC10)
    (dev : String → Int) (v : Int) :
    (ThorlabsSC10.read_repeat_count st dev).2.1 = [WireMsg.query "rep?"] ∧
    (ThorlabsSC10.read_repeat_count st dev).2.2 = dev "rep?" ∧
    (ThorlabsSC10.read_open_duration st dev).2.1 = [WireMsg.query "open?"] ∧
    (ThorlabsSC10.read_open_duration st dev).2.2 = dev "open?" ∧
    (ThorlabsSC10.read_close_duration st dev).2.1 = [WireMsg.query "shut?"] ∧
    (ThorlabsSC10.read_close_duration st dev).2.2 = dev "shut?" ∧
    (ThorlabsSC10.write_repeat_count st v).2 =
      [WireMsg.cmd ("rep=" ++ toString v)] ∧
    (ThorlabsSC10.write_open_duration st v).2 =
      [WireMsg.cmd ("open=" ++ toString v)] ∧
    (ThorlabsSC10.write_close_duration st v).2 =
      [WireMsg.cmd ("shut=" ++ toString v)] :=
  ⟨rfl, rfl, rfl, rfl, rfl, rfl, rfl, rfl, rfl⟩

/-- C7: `store_config` unconditionally sends exactly `savp`,
`restore_config` unconditionally sends exactly `resp`, and running the two
in sequence sends exactly `savp` then `resp` with no query issued by
either action. -/
theorem sc10_C7_config_commands (st st2 : ThorlabsSC10) :
    (ThorlabsSC10.store_config st).2.1 = [WireMsg.cmd "savp"] ∧
    (ThorlabsSC10.restore_config st2).2.1 = [WireMsg.cmd "resp"] ∧
    (ThorlabsSC10.store_config st).2.1 ++
        (ThorlabsSC10.restore_config (ThorlabsSC10.store_config st).1).2.1 =
      [WireMsg.cmd "savp", WireMsg.cmd "resp"] ∧
    ∀ s, WireMsg.query s ∉
      (ThorlabsSC10.store_config st).2.1 ++
        (ThorlabsSC10.restore_config
          (ThorlabsSC10.store_config st).1).2.1 := by
  refine ⟨rfl, rfl, rfl, ?_⟩
  intro s
  simp [ThorlabsSC10.store_config, ThorlabsSC10.restore_config]

/-- C8: read paths perform no validation of the wire reply: for every
integer reply, `read_mode` returns the reply minus 1 (also outside [0,4])
and `read_baudrate` returns the member the numeric mapping produces —
`_115200` for every nonzero reply, `_9600` for reply 0 — with no error. -/
theorem sc10_C8_no_validation (st st2 : ThorlabsSC10)
    (dev : String → Int) :
    (ThorlabsSC10.read_mode st dev).2.2 = dev "mode?" - 1 ∧
    (ThorlabsSC10.read_baudrate st2 dev).2.2 =
      (if dev "baud?" = 0 then BaudRate._9600 else BaudRate._115200) := by
  refine ⟨rfl, ?_⟩
  by_cases h : dev "baud?" = 0 <;>
    simp [ThorlabsSC10.read_baudrate, pyBool, h]

/-- C9 counterexample: `delete_device` is not idempotent.  On a connected
instance a first call succeeds, but a second call on the resulting state
(connection reference gone) raises `AttributeError` instead of
succeeding. -/
theorem sc10_C9_counterexample :
    ThorlabsSC10.delete_device sc10Init =
      ({ sc10Init with sc := none, state := .OFF },
        Except.ok ["Device was deleted!"]) ∧
    (ThorlabsSC10.delete_device
        { sc10Init with sc := none, state := .OFF }).2 =
      Except.error "AttributeError" := ⟨rfl, rfl⟩

/-- C9 (amended): `delete_device` transitions the adapter to the
non-operational state OFF unconditionally; when a connection reference
exists it releases it and succeeds, but it is not idempotent: a second
invocation, or an invocation on an instance whose connection reference is
absent, raises `AttributeError` instead of succeeding — though even then
the adapter is left in the non-operational state OFF. -/
theorem sc10_C9_close_releases (st : ThorlabsSC10) (c : Conn)
    (h : st.sc = some c) :
    ThorlabsSC10.delete_device st =
      ({ st with sc := none, state := .OFF },
        Except.ok ["Device was deleted!"]) ∧
    ThorlabsSC10.delete_device { st with sc := none, state := .OFF } =
      ({ st with sc := none, state := .OFF },
        Except.error "AttributeError") ∧
    (∀ st2 : ThorlabsSC10, st2.sc = none →
      (ThorlabsSC10.delete_device st2).2 = Except.error "AttributeError" ∧
      (ThorlabsSC10.delete_device st2).1 =
        { st2 with state := .OFF }) := by
  refine ⟨?_, ?_, ?_⟩
  · simp [ThorlabsSC10.delete_device, h]
  · simp [ThorlabsSC10.delete_device]
  · intro st2 h2
    simp [ThorlabsSC10.delete_device, h2]

/-- C9 witness: the amended theorem instantiated at the concrete connected
instance. -/
theorem sc10_C9_witness :
    ThorlabsSC10.delete_device sc10Init =
      ({ sc10Init with sc := none, state := .OFF },
        Except.ok ["Device was deleted!"]) ∧
    ThorlabsSC10.delete_device { sc10Init with sc := none, state := .OFF } =
      ({ sc10Init with sc := none, state := .OFF },
        Except.error "AttributeError") ∧
    (∀ st2 : ThorlabsSC10, st2.sc = none →
      (ThorlabsSC10.delete_device st2).2 = Except.error "AttributeError" ∧
      (ThorlabsSC10.delete_device st2).1 =
        { st2 with state := .OFF }) :=
  sc10_C9_close_releases sc10Init ⟨"> "⟩ rfl

/-- C10: no attribute write and no command modifies the cached status
fields `enabled`, `open`, `interlock`: each such operation returns an
instance whose three cached fields equal their prior values. -/
theorem sc10_C10_cache_frame (st : ThorlabsSC10) (v : Int) :
    preservesCache st (ThorlabsSC10.write_mode st v).1 ∧
    preservesCache st (ThorlabsSC10.write_trigger_mode st v).1 ∧
    preservesCache st (ThorlabsSC10.write_extrigger_mode st v).1 ∧
    preservesCache st (ThorlabsSC10.write_baudrate st v).1 ∧
    preservesCache st (ThorlabsSC10.write_repeat_count st v).1 ∧
    preservesCache st (ThorlabsSC10.write_open_duration st v).1 ∧
    preservesCache st (ThorlabsSC10.write_close_duration st v).1 ∧
    preservesCache st (ThorlabsSC10.enable st).1 ∧
    preservesCache st (ThorlabsSC10.disable st).1 ∧
    preservesCache st (ThorlabsSC10.store_config st).1 ∧
    preservesCache st (ThorlabsSC10.restore_config st).1 := by
  cases h : st.enabled <;>
    simp [preservesCache, ThorlabsSC10.write_mode,
      ThorlabsSC10.write_trigger_mode, ThorlabsSC10.write_extrigger_mode,
      ThorlabsSC10.write_baudrate, ThorlabsSC10.write_repeat_count,
      ThorlabsSC10.write_open_duration, ThorlabsSC10.write_close_duration,
      ThorlabsSC10.enable, ThorlabsSC10.disable,
      ThorlabsSC10.store_config, ThorlabsSC10.restore_config, h]
